import Mathlib

/- Shallow embedding of rests/typescript/type_transpiler.py (class TypeTranspiler):
   the registry tables ATOMIC_TYPES / CONTAINER_TYPES / COMPOSITE_TYPES and the
   operations transpile, render_atomic_type, _get_atomic_type and _transpile. -/

namespace Rests

/- A Python class is modelled by its name together with the names of all of its
   superclasses (its own name included).  issubclass(c, k) is membership of
   k.name in c.ancestors; isinstance(v, k) consults the class of the value v.
   Classes of external collaborators (Django fields, typing markers) appear only
   through the identity and subclass facts the transpiler consumes. -/
structure PyClass where
  name : String
  ancestors : List String
deriving DecidableEq

def strClass : PyClass := ⟨"str", ["str", "object"]⟩

def intClass : PyClass := ⟨"int", ["int", "object"]⟩

def floatClass : PyClass := ⟨"float", ["float", "object"]⟩

/- bool is a subclass of int in Python. -/
def boolClass : PyClass := ⟨"bool", ["bool", "int", "object"]⟩

def dictClass : PyClass := ⟨"dict", ["dict", "object"]⟩

def tupleClass : PyClass := ⟨"tuple", ["tuple", "object"]⟩

def noneTypeClass : PyClass := ⟨"NoneType", ["NoneType", "object"]⟩

/- type(c) for a class c: the metaclass `type`. -/
def typeMetaClass : PyClass := ⟨"type", ["type", "object"]⟩

/- The class of typing special forms such as typing.Union and typing.List. -/
def specialFormClass : PyClass := ⟨"typing.SpecialForm", ["typing.SpecialForm", "object"]⟩

def datetimeClass : PyClass := ⟨"datetime.datetime", ["datetime.datetime", "datetime.date", "object"]⟩

def undefinedClass : PyClass := ⟨"Undefined", ["Undefined", "object"]⟩

def jsonFieldClass : PyClass := ⟨"JSONField", ["JSONField", "Field", "object"]⟩

def arrayFieldClass : PyClass := ⟨"ArrayField", ["ArrayField", "Field", "object"]⟩

def charFieldClass : PyClass := ⟨"CharField", ["CharField", "Field", "object"]⟩

def fileFieldClass : PyClass := ⟨"FileField", ["FileField", "Field", "object"]⟩

def textFieldClass : PyClass := ⟨"TextField", ["TextField", "Field", "object"]⟩

def uuidFieldClass : PyClass := ⟨"UUIDField", ["UUIDField", "Field", "object"]⟩

def slugFieldClass : PyClass := ⟨"SlugField", ["SlugField", "CharField", "Field", "object"]⟩

def smallIntegerFieldClass : PyClass := ⟨"SmallIntegerField", ["SmallIntegerField", "IntegerField", "Field", "object"]⟩

def bigIntegerFieldClass : PyClass := ⟨"BigIntegerField", ["BigIntegerField", "IntegerField", "Field", "object"]⟩

def emailFieldClass : PyClass := ⟨"EmailField", ["EmailField", "CharField", "Field", "object"]⟩

def urlFieldClass : PyClass := ⟨"URLField", ["URLField", "CharField", "Field", "object"]⟩

def integerFieldClass : PyClass := ⟨"IntegerField", ["IntegerField", "Field", "object"]⟩

def positiveIntegerFieldClass : PyClass := ⟨"PositiveIntegerField", ["PositiveIntegerField", "IntegerField", "Field", "object"]⟩

def positiveSmallIntegerFieldClass : PyClass := ⟨"PositiveSmallIntegerField", ["PositiveSmallIntegerField", "IntegerField", "Field", "object"]⟩

def decimalFieldClass : PyClass := ⟨"DecimalField", ["DecimalField", "Field", "object"]⟩

def floatFieldClass : PyClass := ⟨"FloatField", ["FloatField", "Field", "object"]⟩

def autoFieldClass : PyClass := ⟨"AutoField", ["AutoField", "Field", "object"]⟩

def bigAutoFieldClass : PyClass := ⟨"BigAutoField", ["BigAutoField", "AutoField", "Field", "object"]⟩

def booleanFieldClass : PyClass := ⟨"BooleanField", ["BooleanField", "Field", "object"]⟩

def nullBooleanFieldClass : PyClass := ⟨"NullBooleanField", ["NullBooleanField", "Field", "object"]⟩

def dateTimeFieldClass : PyClass := ⟨"DateTimeField", ["DateTimeField", "DateField", "Field", "object"]⟩

def dateFieldClass : PyClass := ⟨"DateField", ["DateField", "Field", "object"]⟩

def foreignKeyClass : PyClass := ⟨"ForeignKey", ["ForeignKey", "ForeignObject", "RelatedField", "Field", "object"]⟩

def oneToOneFieldClass : PyClass := ⟨"OneToOneField", ["OneToOneField", "ForeignKey", "ForeignObject", "RelatedField", "Field", "object"]⟩

def manyToOneRelClass : PyClass := ⟨"ManyToOneRel", ["ManyToOneRel", "ForeignObjectRel", "object"]⟩

def modelClass : PyClass := ⟨"Model", ["Model", "object"]⟩

def promiseClass : PyClass := ⟨"Promise", ["Promise", "object"]⟩

def inLookupClass : PyClass := ⟨"In", ["In", "Lookup", "object"]⟩

def relatedInClass : PyClass := ⟨"RelatedIn", ["RelatedIn", "In", "Lookup", "object"]⟩

def rangeLookupClass : PyClass := ⟨"Range", ["Range", "Lookup", "object"]⟩

/- The Python values the transpiler's operations handle: class objects,
   instances (an instance carries the name of its related_model where one
   exists, consulted by the relation-field renderers), the value None, typing
   special forms (markers such as typing.List and typing.Union, which are not
   classes), and tuples. -/
inductive PyVal where
  | cls (c : PyClass)
  | inst (c : PyClass) (relatedModelName : String)
  | pynone
  | marker (name : String)
  | tup (elems : List PyVal)

/- Equality of Python objects as the transpiler's dictionary lookups and
   identity checks consume it.  Classes compare by identity, which the model
   renders as structural equality of their descriptions. -/
mutual

def pyValBeq : PyVal → PyVal → Bool
  | .cls c, .cls c2 => c == c2
  | .inst c r, .inst c2 r2 => c == c2 && r == r2
  | .pynone, .pynone => true
  | .marker n, .marker n2 => n == n2
  | .tup xs, .tup ys => pyListBeq xs ys
  | _, _ => false

def pyListBeq : List PyVal → List PyVal → Bool
  | [], [] => true
  | x :: xs, y :: ys => pyValBeq x y && pyListBeq xs ys
  | _, _ => false

end

/- type(v): the class of a value, as used by isinstance checks. -/
def instClass : PyVal → PyClass
  | .cls _ => typeMetaClass
  | .inst c _ => c
  | .pynone => noneTypeClass
  | .marker _ => specialFormClass
  | .tup _ => tupleClass

/- isinstance(v, k). -/
def pyIsInstance (v : PyVal) (k : PyClass) : Bool :=
  k.name ∈ (instClass v).ancestors

/- inspect.isclass(v). -/
def pyIsClass : PyVal → Bool
  | .cls _ => true
  | _ => false

/- The substitution of render_atomic_type lines 91-93: base_type is the value
   itself when it is a class, and its type otherwise. -/
def baseClass : PyVal → PyClass
  | .cls c => c
  | .inst c _ => c
  | .pynone => noneTypeClass
  | .marker _ => specialFormClass
  | .tup _ => tupleClass

/- The exceptions an invocation can raise.  transpileError carries the
   offending descriptor (TranspileError("Unable to find an atomic type for
   {}".format(type_))); pyFault stands for the other runtime exceptions Python
   raises on these paths (IndexError, TypeError, AttributeError, KeyError). -/
inductive PyError where
  | transpileError (d : PyVal)
  | pyFault

/- Modelled from the spec: the literal target-language type tokens live in
   rests.typescript.types, which is not under src/.  Section 6 of the spec
   fixes them as the target language's real type-syntax keywords, verbatim. -/
def STRING : String := "string"

def NUMBER : String := "number"

def BOOLEAN : String := "boolean"

def OBJECT : String := "object"

def ARRAY : String := "Array"

def NULL : String := "null"

def UNDEFINED : String := "undefined"

def PROMISE : String := "Promise"

def DATE : String := "Date"

/- A value of the ATOMIC_TYPES table: either a literal string or a renderer
   function (the source distinguishes the two with hasattr(-, "__call__")). -/
inductive Renderer where
  | lit (s : String)
  | fn (f : PyVal → Except PyError String)

/- x.related_model.__name__, as in the ForeignKey / OneToOneField /
   ManyToOneRel entries; on a value with no related_model Python raises
   AttributeError. -/
def relatedModelRenderer : PyVal → Except PyError String
  | .inst _ related => .ok related
  | _ => .error .pyFault

/- x.__name__, as in the models.Model entry; only classes carry __name__. -/
def dunderNameRenderer : PyVal → Except PyError String
  | .cls c => .ok c.name
  | _ => .error .pyFault

/- TypeTranspiler.ATOMIC_TYPES, as an insertion-ordered association list.
   Keys are the Python objects used in the source: class objects and the
   value None. -/
def ATOMIC_TYPES : List (PyVal × Renderer) :=
  [ (.cls strClass, .lit STRING),
    (.cls intClass, .lit NUMBER),
    (.cls floatClass, .lit NUMBER),
    (.cls boolClass, .lit BOOLEAN),
    (.cls dictClass, .lit OBJECT),
    (.pynone, .lit NULL),
    (.cls datetimeClass, .lit DATE),
    (.cls undefinedClass, .lit UNDEFINED),
    (.cls jsonFieldClass, .lit OBJECT),
    (.cls arrayFieldClass, .lit ARRAY),
    (.cls charFieldClass, .lit STRING),
    (.cls fileFieldClass, .lit STRING),
    (.cls textFieldClass, .lit STRING),
    (.cls uuidFieldClass, .lit STRING),
    (.cls slugFieldClass, .lit STRING),
    (.cls smallIntegerFieldClass, .lit STRING),
    (.cls bigIntegerFieldClass, .lit NUMBER),
    (.cls emailFieldClass, .lit STRING),
    (.cls urlFieldClass, .lit STRING),
    (.cls integerFieldClass, .lit NUMBER),
    (.cls positiveIntegerFieldClass, .lit NUMBER),
    (.cls positiveSmallIntegerFieldClass, .lit NUMBER),
    (.cls decimalFieldClass, .lit NUMBER),
    (.cls floatFieldClass, .lit NUMBER),
    (.cls autoFieldClass, .lit NUMBER),
    (.cls bigAutoFieldClass, .lit NUMBER),
    (.cls booleanFieldClass, .lit BOOLEAN),
    (.cls nullBooleanFieldClass, .lit (BOOLEAN ++ " | " ++ NULL)),
    (.cls dateTimeFieldClass, .lit DATE),
    (.cls dateFieldClass, .lit DATE),
    (.cls foreignKeyClass, .fn relatedModelRenderer),
    (.cls oneToOneFieldClass, .fn relatedModelRenderer),
    (.cls manyToOneRelClass, .fn relatedModelRenderer),
    (.cls modelClass, .fn dunderNameRenderer) ]

/- Python str(x) as performed by an f-string: a missing value prints as
   "None". -/
def pyFormat : Option String → String
  | some s => s
  | none => "None"

/- TypeTranspiler.CONTAINER_TYPES. -/
def CONTAINER_TYPES : List (PyVal × (String → String)) :=
  [ (.marker "List", fun x => ARRAY ++ "<" ++ x ++ ">"),
    (.cls promiseClass, fun x => PROMISE ++ "<" ++ x ++ ">"),
    (.cls inLookupClass, fun x => x ++ "[]"),
    (.cls relatedInClass, fun x => x ++ "[]"),
    (.cls rangeLookupClass, fun x => "[" ++ x ++ ", " ++ x ++ "]") ]

/- Python str.join: the separator goes between consecutive elements. -/
def pyJoin (sep : String) : List String → String
  | [] => ""
  | [x] => x
  | x :: xs => x ++ sep ++ pyJoin sep xs

/- TypeTranspiler.COMPOSITE_TYPES. -/
def COMPOSITE_TYPES : List (PyVal × (List String → String)) :=
  [ (.cls tupleClass, fun xs => pyJoin ", " xs),
    (.marker "Union", fun xs => pyJoin " | " xs) ]

/- The three class-level tables, gathered so that every operation is an
   explicit function of (descriptor, registry). -/
structure Registry where
  atomic : List (PyVal × Renderer)
  containers : List (PyVal × (String → String))
  composites : List (PyVal × (List String → String))

def defaultRegistry : Registry :=
  { atomic := ATOMIC_TYPES, containers := CONTAINER_TYPES, composites := COMPOSITE_TYPES }

/- Dictionary lookup by key equality. -/
def lookupAtomic (reg : Registry) (k : PyVal) : Option Renderer :=
  (reg.atomic.find? (fun p => pyValBeq p.1 k)).map (fun p => p.2)

def lookupContainer (reg : Registry) (k : PyVal) : Option (String → String) :=
  (reg.containers.find? (fun p => pyValBeq p.1 k)).map (fun p => p.2)

def lookupComposite (reg : Registry) (k : PyVal) : Option (List String → String) :=
  (reg.composites.find? (fun p => pyValBeq p.1 k)).map (fun p => p.2)

/- The loop body of _get_atomic_type: scan the atomic table in insertion
   order, skipping the key None (isinstance cannot take None), and return
   the first key the probe is an instance of; raise TranspileError with the
   probe when the table is exhausted.  isinstance with a non-class,
   non-None key would raise TypeError in Python. -/
def scanAtomic (v : PyVal) : List (PyVal × Renderer) → Except PyError PyVal
  | [] => .error (.transpileError v)
  | (.pynone, _) :: rest => scanAtomic v rest
  | (.cls kc, _) :: rest =>
      if pyIsInstance v kc then .ok (.cls kc) else scanAtomic v rest
  | _ => .error .pyFault

/- TypeTranspiler._get_atomic_type. -/
def getAtomicType (reg : Registry) (v : PyVal) : Except PyError PyVal :=
  scanAtomic v reg.atomic

/- Lines 91-97 of render_atomic_type: substitute type(v) for a non-class
   probe; a base that is a subclass of models.Model resolves to the Model
   key without scanning, anything else goes through _get_atomic_type. -/
def resolveAtomicKey (reg : Registry) (v : PyVal) : Except PyError PyVal :=
  if modelClass.name ∈ (baseClass v).ancestors then .ok (.cls modelClass)
  else getAtomicType reg v

/- TypeTranspiler.render_atomic_type: resolve the key, then either return
   the literal or call the renderer function on the original descriptor.
   A key absent from the table would raise KeyError. -/
def renderAtomicType (reg : Registry) (v : PyVal) : Except PyError String :=
  match resolveAtomicKey reg v with
  | .error e => .error e
  | .ok k =>
    match lookupAtomic reg k with
    | some (.lit s) => .ok s
    | some (.fn f) => f v
    | none => .error .pyFault

/- " | ".join does str-concatenation over actual strings and raises TypeError
   when an element is None (the silent fall-through value of _transpile). -/
def allStrings : List (Option String) → Option (List String)
  | [] => some []
  | some s :: rest => (allStrings rest).map (fun ss => s :: ss)
  | none :: _ => none

/- TypeTranspiler._transpile, with the registry state threaded through every
   step of the call exactly as the source reads it; no branch writes to the
   tables, and the fall-through at the end of the Python function returns the
   value None (modelled as Except.ok Option.none).  The body of _transpile is
   factored into one function per shape decision: transpileNodeCall is the
   entry (line 118's tuple test), transpileTupCall handles a tuple node
   (lines 120-127: an empty tuple raises IndexError at type_[0], a tuple
   first element recurses into it), transpileRestCall dispatches on the
   registered origin tables over the remaining elements (a one-element node
   has no type_[1], so the composite and container branches raise IndexError
   there; one remaining shape is the len == 1 atomic branch; any longer
   unregistered shape is the final fall-through returning None), and
   transpileIterCall iterates the children value of a composite origin
   (iterating a non-sequence raises TypeError, and str.join raises TypeError
   when a rendered child is the silent None). -/
mutual

def transpileNodeCall (reg : Registry) : PyVal → Except PyError (Option String) × Registry
  | .tup xs => transpileTupCall reg xs
  | v => ((renderAtomicType reg v).map some, reg)

def transpileTupCall (reg : Registry) : List PyVal → Except PyError (Option String) × Registry
  | [] => (.error .pyFault, reg)
  | .tup ys :: _ => transpileTupCall reg ys
  | x0 :: rest => transpileRestCall reg x0 rest

def transpileRestCall (reg : Registry) (x0 : PyVal) :
    List PyVal → Except PyError (Option String) × Registry
  | [] =>
    match lookupComposite reg x0 with
    | some _ => (.error .pyFault, reg)
    | none =>
      match lookupContainer reg x0 with
      | some _ => (.error .pyFault, reg)
      | none => ((renderAtomicType reg x0).map some, reg)
  | x1 :: _ =>
    match lookupComposite reg x0 with
    | some join => transpileIterCall reg join x1
    | none =>
      match lookupContainer reg x0 with
      | some wrap =>
        (match transpileNodeCall reg x1 with
         | (.error e, reg2) => (.error e, reg2)
         | (.ok r, reg2) => (.ok (some (wrap (pyFormat r))), reg2))
      | none => (.ok none, reg)

def transpileIterCall (reg : Registry) (join : List String → String) :
    PyVal → Except PyError (Option String) × Registry
  | .tup cs =>
    (match transpileChildrenCall reg cs with
     | (.error e, reg2) => (.error e, reg2)
     | (.ok rs, reg2) =>
       match allStrings rs with
       | some ss => (.ok (some (join ss)), reg2)
       | none => (.error .pyFault, reg2))
  | _ => (.error .pyFault, reg)

def transpileChildrenCall (reg : Registry) : List PyVal → Except PyError (List (Option String)) × Registry
  | [] => (.ok [], reg)
  | c :: cs =>
    match transpileNodeCall reg c with
    | (.error e, reg2) => (.error e, reg2)
    | (.ok r, reg2) =>
      match transpileChildrenCall reg2 cs with
      | (.error e, reg3) => (.error e, reg3)
      | (.ok rs, reg3) => (.ok (r :: rs), reg3)

end

/- The result of one _transpile call. -/
def transpileNode (reg : Registry) (v : PyVal) : Except PyError (Option String) :=
  (transpileNodeCall reg v).1

/- Modelled from the spec: the introspection facility
   rests.core.utils.typing_inspect (get_origin and get_args) is not under
   src/.  Section 6 of the spec fixes its contract: a descriptor decomposes
   into an origin marker (absent for non-parameterized descriptors, in which
   case the descriptor is atomic) and an ordered sequence of child type
   descriptors, and _transpile's handling of pairs shows that a parameterized
   child is reported as the pair (originMarker, children). -/
inductive TypeDesc where
  | plain (v : PyVal)
  | generic (origin : PyVal) (args : List TypeDesc)

mutual

/- Modelled from the spec: the node shape the introspection facility reports
   for a parameterized descriptor, a pair of the origin marker and the tuple
   of children, nested pairs for nested generics. -/
def toNode : TypeDesc → PyVal
  | .plain v => v
  | .generic o args => .tup [o, .tup (toNodeList args)]

def toNodeList : List TypeDesc → List PyVal
  | [] => []
  | d :: ds => toNode d :: toNodeList ds

end

/- TypeTranspiler.transpile: no origin means atomic, otherwise dispatch on
   the pair (origin, children). -/
def transpileCall (reg : Registry) : TypeDesc → Except PyError (Option String) × Registry
  | .plain v => ((renderAtomicType reg v).map some, reg)
  | .generic o args => transpileNodeCall reg (.tup [o, .tup (toNodeList args)])

def transpileWith (reg : Registry) (d : TypeDesc) : Except PyError (Option String) :=
  (transpileCall reg d).1

def transpile (d : TypeDesc) : Except PyError (Option String) :=
  transpileWith defaultRegistry d


/- Whether a Python value is a tuple, isinstance(v, tuple). -/
def isTup : PyVal → Bool
  | .tup _ => true
  | _ => false

/- One atomic-table entry as _get_atomic_type's loop sees it for a probe v:
   the skipped key None, or a class key the probe is not an instance of. -/
def atomicEntrySkippedOrUnmatched (v : PyVal) (p : PyVal × Renderer) : Bool :=
  match p.1 with
  | .pynone => true
  | .cls kc => ! pyIsInstance v kc
  | _ => false

/- The probe v exhausts the whole atomic table without a match. -/
def noAtomicMatch (reg : Registry) (v : PyVal) : Bool :=
  reg.atomic.all (atomicEntrySkippedOrUnmatched v)

theorem scanAtomic_no_match (v : PyVal) :
    ∀ table : List (PyVal × Renderer),
      table.all (atomicEntrySkippedOrUnmatched v) = true →
      scanAtomic v table = .error (.transpileError v)
  | [], _ => rfl
  | (k, r) :: rest, h => by
      rw [List.all_cons, Bool.and_eq_true] at h
      obtain ⟨hk, hrest⟩ := h
      have ih := scanAtomic_no_match v rest hrest
      match k, hk with
      | .pynone, _ => simpa [scanAtomic] using ih
      | .cls kc, hk =>
          have hni : pyIsInstance v kc = false := by
            simpa [atomicEntrySkippedOrUnmatched] using hk
          simp [scanAtomic, hni, ih]

/- Unfolding equations of the dispatch functions, each definitional. -/
theorem nodeCall_tup (reg : Registry) (xs : List PyVal) :
    transpileNodeCall reg (.tup xs) = transpileTupCall reg xs := rfl

theorem tupCall_nested (reg : Registry) (ys : List PyVal) (rest : List PyVal) :
    transpileTupCall reg (.tup ys :: rest) = transpileTupCall reg ys := rfl

theorem tupCall_cons (reg : Registry) (x0 : PyVal) (rest : List PyVal)
    (h : isTup x0 = false) :
    transpileTupCall reg (x0 :: rest) = transpileRestCall reg x0 rest := by
  cases x0 <;> first | rfl | simp [isTup] at h

theorem restCall_nil (reg : Registry) (x0 : PyVal) :
    transpileRestCall reg x0 [] =
      (match lookupComposite reg x0 with
       | some _ => (.error .pyFault, reg)
       | none =>
         match lookupContainer reg x0 with
         | some _ => (.error .pyFault, reg)
         | none => ((renderAtomicType reg x0).map some, reg)) := rfl

theorem restCall_cons (reg : Registry) (x0 x1 : PyVal) (rest2 : List PyVal) :
    transpileRestCall reg x0 (x1 :: rest2) =
      (match lookupComposite reg x0 with
       | some join => transpileIterCall reg join x1
       | none =>
         match lookupContainer reg x0 with
         | some wrap =>
           (match transpileNodeCall reg x1 with
            | (.error e, reg2) => (.error e, reg2)
            | (.ok r, reg2) => (.ok (some (wrap (pyFormat r))), reg2))
         | none => (.ok none, reg)) := rfl

theorem iterCall_tup (reg : Registry) (join : List String → String) (cs : List PyVal) :
    transpileIterCall reg join (.tup cs) =
      (match transpileChildrenCall reg cs with
       | (.error e, reg2) => (.error e, reg2)
       | (.ok rs, reg2) =>
         match allStrings rs with
         | some ss => (.ok (some (join ss)), reg2)
         | none => (.error .pyFault, reg2)) := rfl

theorem childrenCall_nil (reg : Registry) :
    transpileChildrenCall reg [] = (.ok [], reg) := rfl

theorem childrenCall_cons (reg : Registry) (c : PyVal) (cs : List PyVal) :
    transpileChildrenCall reg (c :: cs) =
      (match transpileNodeCall reg c with
       | (.error e, reg2) => (.error e, reg2)
       | (.ok r, reg2) =>
         match transpileChildrenCall reg2 cs with
         | (.error e, reg3) => (.error e, reg3)
         | (.ok rs, reg3) => (.ok (r :: rs), reg3)) := rfl

/- No branch of _transpile writes to the registry: the state every call
   returns is the state it was given, proved across the whole mutual
   recursion. -/
mutual

theorem nodeCall_preserves : ∀ (reg : Registry) (v : PyVal), (transpileNodeCall reg v).2 = reg
  | reg, .tup xs => tupCall_preserves reg xs
  | _, .cls _ => rfl
  | _, .inst _ _ => rfl
  | _, .pynone => rfl
  | _, .marker _ => rfl
termination_by _reg v => sizeOf v

theorem tupCall_preserves : ∀ (reg : Registry) (l : List PyVal), (transpileTupCall reg l).2 = reg
  | _, [] => rfl
  | reg, .tup ys :: _ => tupCall_preserves reg ys
  | reg, .cls c :: rest => restCall_preserves reg (.cls c) rest
  | reg, .inst c r :: rest => restCall_preserves reg (.inst c r) rest
  | reg, .pynone :: rest => restCall_preserves reg .pynone rest
  | reg, .marker n :: rest => restCall_preserves reg (.marker n) rest
termination_by _reg l => sizeOf l

theorem restCall_preserves : ∀ (reg : Registry) (x0 : PyVal) (l : List PyVal),
    (transpileRestCall reg x0 l).2 = reg
  | reg, x0, [] => by
      rw [restCall_nil]
      cases lookupComposite reg x0 with
      | some j => rfl
      | none => cases lookupContainer reg x0 <;> rfl
  | reg, x0, x1 :: rest2 =>
      have hn : (transpileNodeCall reg x1).2 = reg := nodeCall_preserves reg x1
      have hi : ∀ join, (transpileIterCall reg join x1).2 = reg :=
        fun join => iterCall_preserves reg join x1
      by
        rw [restCall_cons]
        cases lookupComposite reg x0 with
        | some join => exact hi join
        | none =>
          cases lookupContainer reg x0 with
          | none => rfl
          | some wrap =>
            cases hnc : transpileNodeCall reg x1 with
            | mk r g =>
              have hg : g = reg := by rw [hnc] at hn; exact hn
              cases r <;> exact hg
termination_by _reg _x0 l => sizeOf l

theorem iterCall_preserves : ∀ (reg : Registry) (join : List String → String) (v : PyVal),
    (transpileIterCall reg join v).2 = reg
  | reg, join, .tup cs =>
      have hc : (transpileChildrenCall reg cs).2 = reg := childrenCall_preserves reg cs
      by
        rw [iterCall_tup]
        cases hcc : transpileChildrenCall reg cs with
        | mk r g =>
          have hg : g = reg := by rw [hcc] at hc; exact hc
          cases r with
          | error e => exact hg
          | ok rs =>
            dsimp only
            cases allStrings rs <;> exact hg
  | _, _, .cls _ => rfl
  | _, _, .inst _ _ => rfl
  | _, _, .pynone => rfl
  | _, _, .marker _ => rfl
termination_by _reg _join v => sizeOf v

theorem childrenCall_preserves : ∀ (reg : Registry) (l : List PyVal),
    (transpileChildrenCall reg l).2 = reg
  | _, [] => rfl
  | reg, c :: cs =>
      have hn : (transpileNodeCall reg c).2 = reg := nodeCall_preserves reg c
      have hcs : ∀ g, (transpileChildrenCall g cs).2 = g :=
        fun g => childrenCall_preserves g cs
      by
        rw [childrenCall_cons]
        cases hnc : transpileNodeCall reg c with
        | mk r g =>
          have hg : g = reg := by rw [hnc] at hn; exact hn
          cases r with
          | error e => exact hg
          | ok r2 =>
            dsimp only
            cases hcc : transpileChildrenCall g cs with
            | mk rr gg =>
              have hgg : gg = g := by have h2 := hcs g; rw [hcc] at h2; exact h2
              cases rr <;> exact hgg.trans hg
termination_by _reg l => sizeOf l

end

/- Sample dispatch runs on concrete descriptors: a CharField instance is an
   atomic node rendering to the string token, an IntegerField instance to
   the number token. -/
theorem transpileNode_charField_inst :
    transpileNode defaultRegistry (.inst charFieldClass "") = .ok (some "string") := rfl

theorem transpileNode_integerField_inst :
    transpileNode defaultRegistry (.inst integerFieldClass "") = .ok (some "number") := rfl

/-- C1: the claim states that atomic resolution returns the first key k in
definition order such that the descriptor is k itself or an instance of k.
The code has no identity (or subclass) match: _get_atomic_type only performs
isinstance checks, contradicting its own docstring ("either an instance of,
or a subclass of").  Evaluated at the descriptor that is the registered key
str itself, the scan exhausts the table and raises TranspileError instead of
returning str. -/
theorem C1_atomic_resolution_no_identity_match :
    (ATOMIC_TYPES.map Prod.fst).any (fun k => pyValBeq k (.cls strClass)) = true ∧
    getAtomicType defaultRegistry (.cls strClass) = .error (.transpileError (.cls strClass)) ∧
    transpile (.plain (.cls strClass)) = .error (.transpileError (.cls strClass)) :=
  ⟨rfl, rfl, rfl⟩

/-- C2: a descriptor with no origin marker, not based on a subclass of the
model base, for which the instance-of scan exhausts the whole atomic table,
makes transpile raise TranspileError carrying the offending descriptor, and
never yields a default string. -/
theorem C2_unresolved_descriptor_raises (v : PyVal)
    (hmodel : modelClass.name ∉ (baseClass v).ancestors)
    (hmatch : noAtomicMatch defaultRegistry v = true) :
    transpile (.plain v) = .error (.transpileError v) := by
  have hscan : scanAtomic v defaultRegistry.atomic = .error (.transpileError v) :=
    scanAtomic_no_match v _ hmatch
  simp [transpile, transpileWith, transpileCall, renderAtomicType, resolveAtomicKey,
    getAtomicType, Except.map, hmodel, hscan]

theorem C2_unresolved_descriptor_raises_witness :
    modelClass.name ∉ (baseClass (.inst ⟨"Widget", ["Widget", "object"]⟩ "")).ancestors ∧
    noAtomicMatch defaultRegistry (.inst ⟨"Widget", ["Widget", "object"]⟩ "") = true ∧
    transpile (.plain (.inst ⟨"Widget", ["Widget", "object"]⟩ "")) =
      .error (.transpileError (.inst ⟨"Widget", ["Widget", "object"]⟩ "")) :=
  ⟨by decide, by decide,
    C2_unresolved_descriptor_raises (.inst ⟨"Widget", ["Widget", "object"]⟩ "")
      (by decide) (by decide)⟩

/-- C3: the claim states that a List container of a Union of the string type
and the null/none type transpiles to "Array<string | null>".  On the code the
recursion reaches render_atomic_type with the class str as probe; the
instance-of scan matches no key for a class probe (and the None child could
match nothing either, its table entry being skipped), so the call raises
TranspileError instead of returning any string. -/
theorem C3_nested_composition_raises :
    transpile (.generic (.marker "List")
        [.generic (.marker "Union") [.plain (.cls strClass), .plain .pynone]]) =
      .error (.transpileError (.cls strClass)) := rfl

/-- C4: a composite descriptor (Union, [TypeA, TypeB]) whose origin is the
registered Union composite key renders each child recursively and returns
render(TypeA) ++ " | " ++ render(TypeB), preserving the children's input
order, with no sorting and no deduplication of members. -/
theorem C4_union_composite_join (a b : TypeDesc) (sa sb : String)
    (ha : transpileNode defaultRegistry (toNode a) = .ok (some sa))
    (hb : transpileNode defaultRegistry (toNode b) = .ok (some sb)) :
    transpile (.generic (.marker "Union") [a, b]) = .ok (some (sa ++ " | " ++ sb)) := by
  simp only [transpileNode] at ha hb
  have hpa : transpileNodeCall defaultRegistry (toNode a) = (.ok (some sa), defaultRegistry) :=
    Prod.ext ha (nodeCall_preserves defaultRegistry (toNode a))
  have hpb : transpileNodeCall defaultRegistry (toNode b) = (.ok (some sb), defaultRegistry) :=
    Prod.ext hb (nodeCall_preserves defaultRegistry (toNode b))
  show (transpileIterCall defaultRegistry (fun xs => pyJoin " | " xs)
      (.tup [toNode a, toNode b])).1 = .ok (some (sa ++ " | " ++ sb))
  simp only [iterCall_tup, childrenCall_cons, childrenCall_nil, hpa, hpb, allStrings,
    Option.map, pyJoin]

theorem C4_union_composite_join_witness :
    transpile (.generic (.marker "Union")
        [.plain (.inst charFieldClass ""), .plain (.inst integerFieldClass "")]) =
      .ok (some "string | number") :=
  C4_union_composite_join (.plain (.inst charFieldClass "")) (.plain (.inst integerFieldClass ""))
    "string" "number" transpileNode_charField_inst transpileNode_integerField_inst

/-- C5: the claim states that a dispatched node whose origin marker is
registered in no table and whose arity is not one makes the engine fail
loudly.  The code instead falls off the end of _transpile and silently
returns the value None: evaluated at an origin registered nowhere with two
children, the call returns None rather than raising. -/
theorem C5_unregistered_origin_returns_silent_none :
    lookupComposite defaultRegistry (.marker "Mapping") = none ∧
    lookupContainer defaultRegistry (.marker "Mapping") = none ∧
    (ATOMIC_TYPES.map Prod.fst).any (fun k => pyValBeq k (.marker "Mapping")) = false ∧
    transpile (.generic (.marker "Mapping")
        [.plain (.inst charFieldClass ""), .plain (.inst integerFieldClass "")]) = .ok none :=
  ⟨rfl, rfl, rfl, rfl⟩

/-- C6 counterexample: the claim states that a descriptor with an origin not
registered as composite or container and exactly one child renders as that
child's atomic rendering.  Evaluated at such a descriptor the code returns
the silent value None, while the child's own atomic rendering is the string
token, so the claim as stated is false. -/
theorem C6_counterexample_single_child_not_passed_through :
    transpile (.generic (.marker "Optional") [.plain (.inst charFieldClass "")]) = .ok none ∧
    renderAtomicType defaultRegistry (.inst charFieldClass "") = .ok "string" :=
  ⟨rfl, rfl⟩

/-- C6 amended: the pass-through branch fires on one-element dispatch nodes,
the shape _transpile receives for a container's children tuple, not on a
descriptor with an unregistered origin and one child (whose node is always a
pair and falls through to None).  A node that is a one-element tuple whose
sole element is not itself a tuple and is registered in neither the
composite nor the container table renders as the atomic rendering of that
element. -/
theorem C6_singleton_node_passes_through (v : PyVal)
    (ht : isTup v = false)
    (hc : lookupComposite defaultRegistry v = none)
    (hk : lookupContainer defaultRegistry v = none) :
    transpileNode defaultRegistry (.tup [v]) =
      (renderAtomicType defaultRegistry v).map some := by
  cases v with
  | tup ys => simp [isTup] at ht
  | cls c =>
    show (transpileRestCall defaultRegistry (.cls c) []).1 =
      (renderAtomicType defaultRegistry (.cls c)).map some
    rw [restCall_nil, hc, hk]
  | inst c r =>
    show (transpileRestCall defaultRegistry (.inst c r) []).1 =
      (renderAtomicType defaultRegistry (.inst c r)).map some
    rw [restCall_nil, hc, hk]
  | pynone =>
    show (transpileRestCall defaultRegistry .pynone []).1 =
      (renderAtomicType defaultRegistry .pynone).map some
    rw [restCall_nil, hc, hk]
  | marker n =>
    show (transpileRestCall defaultRegistry (.marker n) []).1 =
      (renderAtomicType defaultRegistry (.marker n)).map some
    rw [restCall_nil, hc, hk]

theorem C6_singleton_node_passes_through_witness :
    transpileNode defaultRegistry (.tup [.inst charFieldClass ""]) =
      (renderAtomicType defaultRegistry (.inst charFieldClass "")).map some :=
  C6_singleton_node_passes_through (.inst charFieldClass "") rfl rfl rfl

/-- C7: the claim states that the null/none atomic key, skipped during the
instance-of scan, is matched by identity, so that transpiling the None
descriptor returns the registered null token.  The table does hold the entry
None, yet no identity match exists in the code: the scan skips the None key,
matches nothing else, and transpiling None raises TranspileError instead of
returning the null token. -/
theorem C7_none_descriptor_raises :
    lookupAtomic defaultRegistry .pynone = some (.lit NULL) ∧
    transpile (.plain .pynone) = .error (.transpileError .pynone) :=
  ⟨rfl, rfl⟩

/-- C8: whenever the resolved atomic key of an origin-less descriptor has a
function renderer, transpile applies that function to the original
descriptor itself, not to a pre-rendered string. -/
theorem C8_function_renderer_gets_descriptor (v k : PyVal)
    (f : PyVal → Except PyError String)
    (hk : resolveAtomicKey defaultRegistry v = .ok k)
    (hf : lookupAtomic defaultRegistry k = some (.fn f)) :
    transpile (.plain v) = (f v).map some := by
  simp [transpile, transpileWith, transpileCall, renderAtomicType, hk, hf]

theorem C8_function_renderer_gets_descriptor_witness :
    transpile (.plain (.inst foreignKeyClass "Author")) =
      (relatedModelRenderer (.inst foreignKeyClass "Author")).map some :=
  C8_function_renderer_gets_descriptor (.inst foreignKeyClass "Author")
    (.cls foreignKeyClass) relatedModelRenderer rfl rfl

/-- C9: a transpile call is a pure function of the descriptor and the
registry tables: the registry state after a call is the state before it, and
a second call on the same descriptor against the registry state left by the
first returns the same result. -/
theorem C9_transpile_is_pure (reg : Registry) (d : TypeDesc) :
    (transpileCall reg d).2 = reg ∧
    (transpileCall ((transpileCall reg d).2) d).1 = (transpileCall reg d).1 := by
  have h : (transpileCall reg d).2 = reg := by
    cases d with
    | plain v => rfl
    | generic o args => exact nodeCall_preserves reg (.tup [o, .tup (toNodeList args)])
  exact ⟨h, by rw [h]⟩

/-- C10: a dispatched node that is a tuple whose first element is itself a
tuple evaluates to the dispatch of that first element alone; any further
elements of the outer tuple are ignored and contribute nothing to the
output. -/
theorem C10_nested_pair_unwraps (reg : Registry) (ys rest : List PyVal) :
    transpileNode reg (.tup (.tup ys :: rest)) = transpileNode reg (.tup ys) := rfl

end Rests
